import Mathlib

/-!
Verification of the pLGG mutation-status prediction script (main-resnet.py).

Each Python function that the claims touch is shallowly embedded as a Lean
definition: pure functions become Lean functions, the stateful loops become
folds or explicit recursion carrying the mutated variables, Python dicts
become functions into Option, float arithmetic is modelled over the exact
rationals, and fallible operations return Option or Except.  Things the
script delegates to external libraries (the neural network forward pass,
the loss criterion, the AUC score, the random generators) enter as explicit
function parameters, exactly where the script calls into them.
-/

/- ------------------------------------------------------------------ -/
/- Python runtime errors that the embedded fragments can raise.       -/

/-- Runtime errors relevant to the embedded code: KeyError from a missing
dict key, TypeError from indexing a list with a string or unpacking None,
AssertionError from a failed assert. -/
inductive PyErr where
  | keyError
  | typeError
  | assertionError
deriving DecidableEq, Repr

/- ------------------------------------------------------------------ -/
/- create_label / process_excel (label derivation, lines 487-530).    -/

/-- Embedding of create_label (lines 487-493): mutation == 1 gives 1,
otherwise fusion == 1 gives 0, otherwise None. -/
def create_label (mutation fusion : ℤ) : Option ℤ :=
  if mutation = 1 then some 1
  else if fusion = 1 then some 0
  else none

/-- Embedding of the labelling part of process_excel (lines 512-522): each
row is (code, BRAF V600E final, BRAF fusion final); create_label is applied
per row, rows whose label is None (NaN) are dropped, and the surviving
(code, label) pairs form the training_labels mapping. -/
def training_labels (rows : List (ℤ × ℤ × ℤ)) : List (ℤ × ℤ) :=
  rows.filterMap fun r => (create_label r.2.1 r.2.2).map fun l => (r.1, l)

/- ------------------------------------------------------------------ -/
/- generate_model (lines 334-352).                                     -/

/-- Block classes of the script: BasicBlock (expansion 1, two 3x3x3
convolutions) and Bottleneck (expansion 4, 1x1x1 / 3x3x3 / 1x1x1). -/
inductive BlockKind where
  | basic
  | bottleneck
deriving DecidableEq, Repr

/-- Class attribute `expansion`: 1 on BasicBlock (line 137), 4 on
Bottleneck (line 171). -/
def BlockKind.expansion : BlockKind → ℕ
  | .basic => 1
  | .bottleneck => 4

/-- The arguments generate_model passes to the ResNet constructor: the
block class, the per-stage block counts, block_inplanes and model_depth. -/
structure ResNetCfg where
  block : BlockKind
  layers : List ℕ
  block_inplanes : List ℕ
  model_depth : ℕ
deriving DecidableEq, Repr

/-- Embedding of generate_model (lines 334-352): the assert restricts the
depth to the enumerated set (a failure raises, modelled as none), then the
if/elif chain picks the block class and layer counts. -/
def generate_model (model_depth : ℕ) (inplanes : List ℕ) : Option ResNetCfg :=
  if model_depth ∈ ([10, 18, 34, 50, 101, 152, 200] : List ℕ) then
    if model_depth = 10 then some ⟨.basic, [1, 1, 1, 1], inplanes, model_depth⟩
    else if model_depth = 18 then some ⟨.basic, [2, 2, 2, 2], inplanes, model_depth⟩
    else if model_depth = 34 then some ⟨.basic, [3, 4, 6, 3], inplanes, model_depth⟩
    else if model_depth = 50 then some ⟨.bottleneck, [3, 4, 6, 3], inplanes, model_depth⟩
    else if model_depth = 101 then some ⟨.bottleneck, [3, 4, 23, 3], inplanes, model_depth⟩
    else if model_depth = 152 then some ⟨.bottleneck, [3, 8, 36, 3], inplanes, model_depth⟩
    else if model_depth = 200 then some ⟨.bottleneck, [3, 24, 36, 3], inplanes, model_depth⟩
    else none
  else none

/-- Modelled from the spec: the fixed per-depth block-count-per-stage table
of section 4.2, used to compare generate_model against the claim. -/
def specDepthTable (model_depth : ℕ) : List ℕ :=
  if model_depth = 10 then [1, 1, 1, 1]
  else if model_depth = 18 then [2, 2, 2, 2]
  else if model_depth = 34 then [3, 4, 6, 3]
  else if model_depth = 50 then [3, 4, 6, 3]
  else if model_depth = 101 then [3, 4, 23, 3]
  else if model_depth = 152 then [3, 8, 36, 3]
  else if model_depth = 200 then [3, 24, 36, 3]
  else []

/- ------------------------------------------------------------------ -/
/- Theorems for C7 and C2 (stage-structure part of C2 is added with the
   ResNet layer embedding further below).                              -/

/-- C7: label derivation satisfies mutation=1 gives label 1 (for any fusion
value, so mutation takes priority on the 1/1 tie), mutation=0 fusion=1
gives label 0, mutation=0 fusion=0 gives no label, and a labelless row is
dropped from the training_labels mapping produced by process_excel. -/
theorem create_label_cases :
    (∀ fusion : ℤ, create_label 1 fusion = some 1) ∧
    create_label 0 1 = some 0 ∧
    create_label 0 0 = none ∧
    (∀ (pre post : List (ℤ × ℤ × ℤ)) (c : ℤ),
      training_labels (pre ++ (c, 0, 0) :: post) =
        training_labels pre ++ training_labels post) := by
  refine ⟨fun fusion => rfl, rfl, rfl, fun pre post c => ?_⟩
  simp [training_labels, List.filterMap_append, List.filterMap_cons, create_label]

/- ------------------------------------------------------------------ -/
/- ResNet._make_layer and the four-stage assembly (lines 226-306).     -/

/-- The shortcut_type tag passed through the constructor: type A is the
avg-pool plus zero-pad downsample, type B the 1x1x1 convolution plus
batch-norm projection (lines 287-294). -/
inductive ShortcutKind where
  | typeA
  | typeB
deriving DecidableEq, Repr

/-- One residual block as _make_layer instantiates it: the in_planes and
planes arguments, the stride, and the downsample argument (none for the
identity shortcut). -/
structure BlockSpec where
  in_planes : ℕ
  planes : ℕ
  stride : ℕ
  downsample : Option ShortcutKind
deriving DecidableEq, Repr

/-- Embedding of ResNet._make_layer (lines 284-306).  The downsample is
built exactly when stride is not 1 or self.in_planes differs from
planes * block.expansion; the first appended block receives the stride and
the downsample, self.in_planes becomes planes * expansion, and the
`for i in range(1, blocks)` loop appends blocks-1 further blocks with the
then-constant in_planes, default stride 1 and default downsample None
(modelled as a replicate).  Returns the block list and the updated
self.in_planes. -/
def make_layer (expansion : ℕ) (shortcut_type : ShortcutKind)
    (in_planes planes blocks stride : ℕ) : List BlockSpec × ℕ :=
  let downsample : Option ShortcutKind :=
    if stride ≠ 1 ∨ in_planes ≠ planes * expansion then some shortcut_type else none
  let first : BlockSpec := ⟨in_planes, planes, stride, downsample⟩
  let rest : List BlockSpec := List.replicate (blocks - 1) ⟨planes * expansion, planes, 1, none⟩
  (first :: rest, planes * expansion)

/-- The four stage fields layer1..layer4 that ResNet.__init__ assigns. -/
structure ResNetLayers where
  layer1 : List BlockSpec
  layer2 : List BlockSpec
  layer3 : List BlockSpec
  layer4 : List BlockSpec
deriving DecidableEq, Repr

/-- Embedding of the stage-building part of ResNet.__init__ (lines
226-258): block_inplanes is rescaled by int(x * widen_factor) (exact
rational floor here), self.in_planes starts at the rescaled first entry,
and the four _make_layer calls use stride 1 for layer1 and stride 2 for
layer2..layer4, threading self.in_planes through. -/
def resnet_layers (expansion : ℕ) (shortcut_type : ShortcutKind)
    (block_inplanes layers : List ℕ) (widen_factor : ℚ) : ResNetLayers :=
  let scaled := block_inplanes.map fun x => Nat.floor ((x : ℚ) * widen_factor)
  let w1 := scaled.getD 0 0
  let w2 := scaled.getD 1 0
  let w3 := scaled.getD 2 0
  let w4 := scaled.getD 3 0
  let m1 := make_layer expansion shortcut_type w1 w1 (layers.getD 0 0) 1
  let m2 := make_layer expansion shortcut_type m1.2 w2 (layers.getD 1 0) 2
  let m3 := make_layer expansion shortcut_type m2.2 w3 (layers.getD 2 0) 2
  let m4 := make_layer expansion shortcut_type m3.2 w4 (layers.getD 3 0) 2
  ⟨m1.1, m2.1, m3.1, m4.1⟩

/-- What claim C9 asserts of one built stage: every block has the stage
width as its planes; the leading block carries the stage stride and has a
downsample exactly when one is required (stride other than 1, or an
incoming channel count that differs from planes times expansion); every
subsequent block has stride 1, no downsample, and channel counts matching
the identity shortcut. -/
def stage_spec (expansion width stageStride : ℕ) (st : List BlockSpec) : Prop :=
  (∀ b ∈ st, b.planes = width) ∧
  (∀ hb ∈ st.head?, hb.stride = stageStride ∧
    (hb.downsample = none ↔ stageStride = 1 ∧ hb.in_planes = width * expansion)) ∧
  (∀ b ∈ st.tail, b.stride = 1 ∧ b.downsample = none ∧ b.in_planes = b.planes * expansion)

/-- Helper: a freshly built layer satisfies stage_spec for its own planes
and stride. -/
theorem make_layer_stage_spec (expansion : ℕ) (sc : ShortcutKind)
    (ip planes blocks stride : ℕ) :
    stage_spec expansion planes stride (make_layer expansion sc ip planes blocks stride).1 := by
  unfold make_layer stage_spec
  refine ⟨?_, ?_, ?_⟩
  · intro b hb
    rcases List.mem_cons.1 hb with h | h
    · simp [h]
    · simp [List.eq_of_mem_replicate h]
  · intro hb hmem
    simp only [List.head?_cons, Option.mem_def, Option.some.injEq] at hmem
    subst hmem
    constructor
    · rfl
    · by_cases hc : stride ≠ 1 ∨ ip ≠ planes * expansion
      · simp only [if_pos hc]
        constructor
        · intro h; exact absurd h (by simp)
        · intro h
          rcases hc with h1 | h2
          · exact absurd h.1 h1
          · exact absurd h.2 h2
      · push_neg at hc
        simp [hc.1, hc.2]
  · intro b hb
    simp only [List.tail_cons] at hb
    have := List.eq_of_mem_replicate hb
    simp [this]

/-- Helper: a built layer has exactly max blocks 1 block instances (the
first block is always appended, the loop adds blocks - 1 more). -/
theorem make_layer_length (expansion : ℕ) (sc : ShortcutKind)
    (ip planes blocks stride : ℕ) :
    (make_layer expansion sc ip planes blocks stride).1.length = max blocks 1 := by
  unfold make_layer
  simp [List.length_replicate]
  omega

/-- The channel width of stage i: the block_inplanes entry rescaled by
int(x * widen_factor), exactly the list comprehension at line 226. -/
def scaled_width (block_inplanes : List ℕ) (widen_factor : ℚ) (i : ℕ) : ℕ :=
  (block_inplanes.map fun x => Nat.floor ((x : ℚ) * widen_factor)).getD i 0

/-- Helper for the stage block counts of an assembled network. -/
theorem resnet_layers_lengths (expansion : ℕ) (sc : ShortcutKind)
    (bi ls : List ℕ) (w : ℚ) :
    (resnet_layers expansion sc bi ls w).layer1.length = max (ls.getD 0 0) 1 ∧
    (resnet_layers expansion sc bi ls w).layer2.length = max (ls.getD 1 0) 1 ∧
    (resnet_layers expansion sc bi ls w).layer3.length = max (ls.getD 2 0) 1 ∧
    (resnet_layers expansion sc bi ls w).layer4.length = max (ls.getD 3 0) 1 :=
  ⟨make_layer_length _ _ _ _ _ _, make_layer_length _ _ _ _ _ _,
   make_layer_length _ _ _ _ _ _, make_layer_length _ _ _ _ _ _⟩

/-- C9: in the assembled network every stage's channel width is its
block_inplanes entry times the width multiplier rounded down, stage 1 has
stride 1 and stages 2-4 stride 2, and within each stage only the first
block carries the stage stride and a downsample (present exactly when
required), while every later block has stride 1 and an identity
shortcut. -/
theorem resnet_stage_structure (expansion : ℕ) (sc : ShortcutKind)
    (block_inplanes layers : List ℕ) (w : ℚ) :
    stage_spec expansion (scaled_width block_inplanes w 0) 1
      (resnet_layers expansion sc block_inplanes layers w).layer1 ∧
    stage_spec expansion (scaled_width block_inplanes w 1) 2
      (resnet_layers expansion sc block_inplanes layers w).layer2 ∧
    stage_spec expansion (scaled_width block_inplanes w 2) 2
      (resnet_layers expansion sc block_inplanes layers w).layer3 ∧
    stage_spec expansion (scaled_width block_inplanes w 3) 2
      (resnet_layers expansion sc block_inplanes layers w).layer4 :=
  ⟨make_layer_stage_spec _ _ _ _ _ _, make_layer_stage_spec _ _ _ _ _ _,
   make_layer_stage_spec _ _ _ _ _ _, make_layer_stage_spec _ _ _ _ _ _⟩

/-- Witness for C9: the configuration the script builds (BasicBlock depth
18, inplanes [64,128,256,512], widen factor 1, shortcut type B), stage 2:
its spec instance holds at these concrete arguments. -/
theorem resnet_stage_structure_witness :
    stage_spec 1 (scaled_width [64, 128, 256, 512] 1 1) 2
      (resnet_layers 1 .typeB [64, 128, 256, 512] [2, 2, 2, 2] 1).layer2 :=
  (resnet_stage_structure 1 .typeB [64, 128, 256, 512] [2, 2, 2, 2] 1).2.1

/-- C2: generate_model fails on every depth outside the enumerated set;
on a supported depth it picks BasicBlock exactly when the depth is at most
34, the per-stage block counts of the fixed table, and the assembled
network has four stages whose block counts match that table. -/
theorem generate_model_depth_table (d : ℕ) (ip : List ℕ) :
    (d ∉ ([10, 18, 34, 50, 101, 152, 200] : List ℕ) → generate_model d ip = none) ∧
    (d ∈ ([10, 18, 34, 50, 101, 152, 200] : List ℕ) →
      generate_model d ip =
        some ⟨if d ≤ 34 then BlockKind.basic else BlockKind.bottleneck,
              specDepthTable d, ip, d⟩ ∧
      (specDepthTable d).length = 4 ∧
      (∀ (sc : ShortcutKind) (w : ℚ) (expansion : ℕ),
        (resnet_layers expansion sc ip (specDepthTable d) w).layer1.length =
          (specDepthTable d).getD 0 0 ∧
        (resnet_layers expansion sc ip (specDepthTable d) w).layer2.length =
          (specDepthTable d).getD 1 0 ∧
        (resnet_layers expansion sc ip (specDepthTable d) w).layer3.length =
          (specDepthTable d).getD 2 0 ∧
        (resnet_layers expansion sc ip (specDepthTable d) w).layer4.length =
          (specDepthTable d).getD 3 0)) := by
  constructor
  · intro h
    simp only [generate_model, if_neg h]
  · intro h
    fin_cases h <;>
      exact ⟨rfl, rfl, fun sc w expansion =>
        have hl := resnet_layers_lengths expansion sc ip (specDepthTable _) w
        ⟨by simpa using hl.1, by simpa using hl.2.1,
         by simpa using hl.2.2.1, by simpa using hl.2.2.2⟩⟩

/-- Witness for C2 at depth 50 with the inplanes the script uses: the
bottleneck block is selected with the table row [3, 4, 6, 3]. -/
theorem generate_model_depth_table_witness :
    generate_model 50 [64, 128, 256, 512] =
      some ⟨BlockKind.bottleneck, [3, 4, 6, 3], [64, 128, 256, 512], 50⟩ ∧
    generate_model 20 [64, 128, 256, 512] = none := by
  constructor
  · have h := (generate_model_depth_table 50 [64, 128, 256, 512]).2 (by decide)
    simpa [specDepthTable] using h.1
  · exact (generate_model_depth_table 20 [64, 128, 256, 512]).1 (by decide)

/- ------------------------------------------------------------------ -/
/- CNNDataset (lines 107-116) and the main-block data preparation      -/
/- (lines 589-594, 624).                                               -/

/-- A 3D volume, indexed abstractly: the numpy arrays carry rational
sample values. -/
abbrev Vol := ℕ → ℚ

/-- A value stored under a patient id in a dict handed to CNNDataset.
The adapter expects a record with input and label fields
(data[id]["input"], data[id]["label"]); the images dict of the main block
instead holds the raw pair [channel A, channel B] loaded from disk
(line 58), on which a string lookup raises TypeError. -/
inductive PyVal (α β : Type) where
  | entry (input : α) (label : β)
  | channels (chA chB : α)

/-- Embedding of CNNDataset (lines 107-116): the data dict and the ordered
patient id list, stored as given. -/
structure CNNDataset (α β : Type) where
  data : ℕ → Option (PyVal α β)
  patient_ids : List ℕ

/-- Embedding of CNNDataset.__len__ (lines 112-113). -/
def CNNDataset.len {α β : Type} (ds : CNNDataset α β) : ℕ :=
  ds.patient_ids.length

/-- Embedding of CNNDataset.__getitem__ (lines 115-116): positional index
into patient_ids, then a dict lookup; an id absent from the dict raises
KeyError, and a stored raw channel list raises TypeError on the string
index. -/
def CNNDataset.getitem {α β : Type} (ds : CNNDataset α β)
    (i : Fin ds.patient_ids.length) : Except PyErr (α × β) :=
  match ds.data (ds.patient_ids.get i) with
  | none => .error .keyError
  | some (.entry inp l) => .ok (inp, l)
  | some (.channels _ _) => .error .typeError

/-- The sample of line 593: the elementwise product of the two imaging
channels of a patient (np.multiply), as a single-channel volume. -/
def sampleOf (chA chB : Vol) : Vol :=
  fun i => chA i * chB i

/-- Embedding of the data-preparation loop of the main block (lines
591-593): data = {} followed by a loop that computes the product sample
into the local variable input on every iteration but never stores it, so
the dict is returned exactly as initialised. -/
def main_data_loop (images : ℕ → Option (Vol × Vol)) (patients_used : List ℕ) :
    ℕ → Option (PyVal Vol ℤ) :=
  patients_used.foldl
    (fun d p =>
      let _input := (images p).map fun ab => sampleOf ab.1 ab.2
      d)
    (fun _ => none)

/-- Embedding of line 624: dataset = CNNDataset(images, patients_used) is
built from the raw images dict, whose entries are the untouched channel
pairs, not from the empty data dict. -/
def main_dataset (images : ℕ → Option (Vol × Vol)) (patients_used : List ℕ) :
    CNNDataset Vol ℤ :=
  { data := fun p => (images p).map fun ab => PyVal.channels ab.1 ab.2
    patient_ids := patients_used }

/-- C10: the dataset adapter contract: length equals the number of listed
ids; positional access returns exactly the stored (input, label) pair of
the patient at that position, and raises KeyError when that id is absent
from the data mapping. -/
theorem cnndataset_contract {α β : Type} (ds : CNNDataset α β)
    (i : Fin ds.patient_ids.length) :
    ds.len = ds.patient_ids.length ∧
    (∀ (inp : α) (l : β), ds.data (ds.patient_ids.get i) = some (.entry inp l) →
      ds.getitem i = .ok (inp, l)) ∧
    (ds.data (ds.patient_ids.get i) = none → ds.getitem i = .error .keyError) := by
  refine ⟨rfl, ?_, ?_⟩
  · intro inp l h
    unfold CNNDataset.getitem
    rw [h]
  · intro h
    unfold CNNDataset.getitem
    rw [h]

/-- Witness for C10: a two-id adapter over a one-entry dict: position 0
yields the stored pair, position 1 hits the missing id 9 and yields
KeyError, and the length is 2. -/
theorem cnndataset_contract_witness :
    (CNNDataset.mk (fun p => if p = 3 then some (PyVal.entry (11 : ℤ) (1 : ℤ)) else none)
      [3, 9]).getitem ⟨0, by decide⟩ = .ok (11, 1) ∧
    (CNNDataset.mk (fun p => if p = 3 then some (PyVal.entry (11 : ℤ) (1 : ℤ)) else none)
      [3, 9]).getitem ⟨1, by decide⟩ = .error .keyError ∧
    (CNNDataset.mk (fun p => if p = 3 then some (PyVal.entry (11 : ℤ) (1 : ℤ)) else none)
      [3, 9]).len = 2 := by
  refine ⟨?_, ?_, ?_⟩
  · exact (cnndataset_contract _ ⟨0, by decide⟩).2.1 11 1 rfl
  · exact (cnndataset_contract _ ⟨1, by decide⟩).2.2 rfl
  · exact (cnndataset_contract _ ⟨0, by decide⟩).1

/-- C4 (what the code actually does): on a concrete one-patient input the
preparation loop leaves the data dict empty, the dataset built at line 624
wraps the raw two-channel images dict, and its item access raises
TypeError instead of yielding the product sample; the product that line
593 computes and discards is shown alongside. -/
theorem main_dataset_not_product :
    main_data_loop (fun p => if p = 7 then some (fun i => (i : ℚ), fun _ => 2) else none) [7]
      = (fun _ => none) ∧
    (main_dataset (fun p => if p = 7 then some (fun i => (i : ℚ), fun _ => 2) else none)
      [7]).getitem ⟨0, by decide⟩ = .error .typeError ∧
    sampleOf (fun i => (i : ℚ)) (fun _ => 2) 3 = 6 := by
  refine ⟨rfl, rfl, by norm_num [sampleOf]⟩

/- ------------------------------------------------------------------ -/
/- evaluate (lines 373-409).                                           -/

/-- The thresholded prediction of line 396: (output > 0.0).long() maps a
model output to 1 when it is strictly positive and to 0 otherwise. -/
def thresholded (o : ℚ) : ℤ :=
  if 0 < o then 1 else 0

/-- The value corr.sum() adds to total_err for one batch (line 396-397).
The outputs have shape (B, 1); (outputs > 0.0).squeeze() has shape (B,)
while the labels keep shape (B, 1), so the != comparison broadcasts to a
(B, B) matrix whose (j, i) entry compares prediction i with label j;
corr.sum() counts every matrix entry. -/
def corr_count (outputs : List ℚ) (labels : List ℤ) : ℕ :=
  (labels.map fun l => (outputs.filter fun o => decide (thresholded o ≠ l)).length).sum

/-- The running state of the evaluate loop: the accumulators total_err,
total_loss and total_epoch, the leftover value of the inner loop variable
i after the most recent batch, and the collected true/estimated lists. -/
structure EvalState where
  total_err : ℕ
  total_loss : ℚ
  total_epoch : ℕ
  lastIdx : ℕ
  true_labels : List ℤ
  estimated : List ℚ

/-- The three scalars evaluate returns. -/
structure EvalOut where
  err : ℚ
  loss : ℚ
  auc : ℚ

/-- Embedding of evaluate (lines 373-409).  The network, the loss
criterion and roc_auc_score are external callables passed in as functions;
a batch is the pair (inputs, labels) the loader yields, with labels the
flattened (B, 1) column.  Per batch the loop adds corr.sum() to total_err,
the batch loss to total_loss and the label count to total_epoch, and the
inner per-example loop leaves its index variable i at len(labels) - 1.
After the loop, err divides by total_epoch but loss divides by (i + 1),
the size of the LAST batch, not by the number of batches. -/
def evaluate {α : Type} (net : α → List ℚ) (criterion : List ℚ → List ℤ → ℚ)
    (auc_score : List ℤ → List ℚ → ℚ) (loader : List (α × List ℤ)) : EvalOut :=
  let final := loader.foldl
    (fun (s : EvalState) (b : α × List ℤ) =>
      let outputs := net b.1
      let loss := criterion outputs b.2
      { total_err := s.total_err + corr_count outputs b.2
        total_loss := s.total_loss + loss
        total_epoch := s.total_epoch + b.2.length
        lastIdx := b.2.length - 1
        true_labels := s.true_labels ++ b.2
        estimated := s.estimated ++ outputs.take b.2.length })
    (⟨0, 0, 0, 0, [], []⟩ : EvalState)
  { err := (final.total_err : ℚ) / (final.total_epoch : ℚ)
    loss := final.total_loss / ((final.lastIdx : ℚ) + 1)
    auc := auc_score final.true_labels final.estimated }

/-- C3 (what the code actually does): with two batches of sizes 2 and 1
and per-batch criterion value 1, evaluate returns loss 2, the summed batch
losses divided by the size of the last batch, whereas dividing the same
sum by the number of batches would give 1. -/
theorem evaluate_loss_divides_by_last_batch :
    (evaluate (fun x : List ℚ => x) (fun _ _ => (1 : ℚ)) (fun _ _ => 0)
        [([(1 : ℚ)/2, 1/2], [0, 1]), ([(1 : ℚ)/2], [1])]).loss = 2 ∧
    ((1 : ℚ) + 1) / 2 = 1 := by
  constructor
  · norm_num [evaluate, corr_count, thresholded]
  · norm_num

/-- The final activation of ResNet.forward (line 329): torch.sigmoid. -/
noncomputable def sigmoid (x : ℝ) : ℝ :=
  1 / (1 + Real.exp (-x))

/-- C6 (what the code actually does): the sigmoid is strictly positive, so
the thresholded prediction is 1 for every output; but on a single batch of
two examples with labels [0, 1] the broadcast err count makes evaluate
return error rate 1, while the fraction of examples whose label is 0 is
1/2. -/
theorem sigmoid_err_not_label_zero_fraction :
    (∀ x : ℝ, 0 < sigmoid x) ∧
    [(9 : ℚ)/10, 1/2].map thresholded = [1, 1] ∧
    (evaluate (fun x : List ℚ => x) (fun _ _ => (1 : ℚ)) (fun _ _ => 0)
        [([(9 : ℚ)/10, 1/2], [0, 1])]).err = 1 ∧
    ((([0, 1] : List ℤ).filter fun l => decide (l = 0)).length : ℚ) / 2 = 1/2 := by
  refine ⟨fun x => ?_, by norm_num [thresholded], ?_, by norm_num⟩
  · unfold sigmoid
    positivity
  · norm_num [evaluate, corr_count, thresholded]

/- ------------------------------------------------------------------ -/
/- train_net (lines 412-482) and the trial loop (lines 615-673).       -/

/-- The eight values the main block tries to unpack from train_net (line
655): best epoch index with that epoch's train/validation error, loss and
AUC and the test AUC. -/
structure TrialResult where
  epoch : ℕ
  train_err : ℚ
  train_loss : ℚ
  train_auc : ℚ
  val_err : ℚ
  val_loss : ℚ
  val_auc : ℚ
  test_auc : ℚ

/-- Embedding of train_net (lines 412-482).  The per-epoch forward passes
are abstracted into the per-batch loss values each epoch produces on the
training and validation loaders.  Per epoch the function computes the
batch-size-weighted average losses exactly as lines 454-458 and 476-478
do; nothing tracks a lowest validation loss, and the function body ends at
line 482 with no return statement, so it returns None. -/
def train_net (train_batch_losses val_batch_losses : ℕ → List ℚ)
    (batch_size num_epochs : ℕ) : Option TrialResult :=
  let epoch_stats := (List.range num_epochs).map fun epoch =>
    let tl := ((train_batch_losses epoch).map (· * (batch_size : ℚ))).sum
    let train_loss := tl / (((train_batch_losses epoch).length : ℚ) * (batch_size : ℚ))
    let vl := ((val_batch_losses epoch).map (· * (batch_size : ℚ))).sum
    let val_loss := vl / (((val_batch_losses epoch).length : ℚ) * (batch_size : ℚ))
    (train_loss, val_loss)
  let _ := epoch_stats
  none

/-- The 8-name tuple unpacking at lines 655-660: unpacking a TrialResult
succeeds, unpacking None raises TypeError. -/
def unpack_trial : Option TrialResult → Except PyErr TrialResult
  | some r => .ok r
  | none => .error .typeError

/-- C1 (what the code actually does): train_net returns None for every
input, so no best-epoch record reaches the caller and the 8-value
unpacking in the trial loop raises TypeError. -/
theorem train_net_returns_none (train_batch_losses val_batch_losses : ℕ → List ℚ)
    (batch_size num_epochs : ℕ) :
    train_net train_batch_losses val_batch_losses batch_size num_epochs = none ∧
    unpack_trial (train_net train_batch_losses val_batch_losses batch_size num_epochs) =
      .error .typeError :=
  ⟨rfl, rfl⟩

/-- The four generators random_seed touches (lines 63-72): numpy, torch,
the host Python generator, and the accelerator generator; each field holds
the seed it was given, none if it was skipped. -/
structure SeededGens where
  np_seed : Option ℕ
  torch_seed : Option ℕ
  python_seed : Option ℕ
  cuda_seed : Option ℕ
deriving DecidableEq, Repr

/-- Embedding of random_seed (lines 63-72): all of numpy, torch and the
Python generator get seed_value; with use_cuda also the accelerator
generator. -/
def random_seed (seed_value : ℕ) (use_cuda : Bool) : SeededGens :=
  { np_seed := some seed_value
    torch_seed := some seed_value
    python_seed := some seed_value
    cuda_seed := if use_cuda then some seed_value else none }

/-- Embedding of the seeding statements of the trial loop (lines 615-622).
Each iteration runs: seed = 1; random_seed(seed, True); next_seed =
random.randint(0, 1000); seed = next_seed.  The randint draw is a
deterministic function of the just-seeded Python generator, passed in as
a function of that seed.  The carried value from the previous iteration is
overwritten by the literal 1 before it is ever used.  Returns, per trial,
the seed used and the generators as seeded. -/
def trial_loop (randint : ℕ → ℕ) : ℕ → ℕ → List (ℕ × SeededGens)
  | 0, _ => []
  | n + 1, _carried =>
    let seed := 1
    let gens := random_seed seed true
    let next_seed := randint seed
    (seed, gens) :: trial_loop randint n next_seed

/-- The whole trial loop of line 615: num_trials iterations, no seed
variable in scope before the first one. -/
def trial_seeds (randint : ℕ → ℕ) (num_trials : ℕ) : List (ℕ × SeededGens) :=
  trial_loop randint num_trials 0

/-- Helper: whatever value is carried in, every iteration seeds with 1 and
seeds all four generators. -/
theorem trial_loop_all_ones (randint : ℕ → ℕ) :
    ∀ (n s : ℕ), (trial_loop randint n s).map Prod.fst = List.replicate n 1 ∧
      ∀ p ∈ trial_loop randint n s, p.2 = random_seed 1 true := by
  intro n
  induction n with
  | zero => intro s; simp [trial_loop]
  | succ k ih =>
    intro s
    refine ⟨?_, ?_⟩
    · simp [trial_loop, List.replicate_succ, (ih (randint 1)).1]
    · intro p hp
      simp only [trial_loop, List.mem_cons] at hp
      rcases hp with h | h
      · simp [h]
      · exact (ih (randint 1)).2 p h

/-- C5 (what the code actually does): every trial is seeded with the
literal 1 - the freshly drawn next_seed never becomes the seed of the
next trial - so consecutive trials use the same seed; each trial does
seed all four generators (with that constant 1). -/
theorem trial_seed_always_one (randint : ℕ → ℕ) (num_trials : ℕ) :
    (trial_seeds randint num_trials).map Prod.fst = List.replicate num_trials 1 ∧
    (∀ p ∈ trial_seeds randint num_trials, p.2 = random_seed 1 true) ∧
    random_seed 1 true = ⟨some 1, some 1, some 1, some 1⟩ :=
  ⟨(trial_loop_all_ones randint num_trials 0).1,
   (trial_loop_all_ones randint num_trials 0).2, rfl⟩

/- ------------------------------------------------------------------ -/
/- The dataset split of the trial loop (lines 624-634).                -/

/-- Embedding of train_size = int(0.6 * len(dataset)) (line 625), with
the float 0.6 as the exact rational it denotes. -/
def train_size (n : ℕ) : ℕ :=
  Nat.floor ((0.6 : ℚ) * n)

/-- Embedding of validation_size = int(0.2 * len(dataset)) (line 626). -/
def validation_size (n : ℕ) : ℕ :=
  Nat.floor ((0.2 : ℚ) * n)

/-- Embedding of test_size = len(dataset) - train_size - validation_size
(line 627). -/
def test_size (n : ℕ) : ℕ :=
  n - train_size n - validation_size n

/-- torch.utils.data.random_split (line 628, external library): draws a
random permutation of the dataset indices and hands out consecutive chunks
of the requested lengths.  Modelled on an arbitrary permutation of the
patient list. -/
def random_split3 (perm : List ℕ) (a b c : ℕ) : List ℕ × List ℕ × List ℕ :=
  (perm.take a, (perm.drop a).take b, ((perm.drop a).drop b).take c)

/-- The split the trial loop performs: chunk lengths train_size,
validation_size and test_size of the dataset length. -/
def dataset_split (perm : List ℕ) : List ℕ × List ℕ × List ℕ :=
  random_split3 perm (train_size perm.length) (validation_size perm.length)
    (test_size perm.length)

/-- Helper: the rational floor of 0.6 times n is the integer 6n/10. -/
theorem train_size_eq (n : ℕ) : train_size n = 6 * n / 10 := by
  unfold train_size
  rw [show ((0.6 : ℚ) * n) = ((6 * n : ℕ) : ℚ) / ((10 : ℕ) : ℚ) by push_cast; ring_nf]
  rw [Nat.floor_div_nat, Nat.floor_natCast]

/-- Helper: the rational floor of 0.2 times n is the integer 2n/10. -/
theorem validation_size_eq (n : ℕ) : validation_size n = 2 * n / 10 := by
  unfold validation_size
  rw [show ((0.2 : ℚ) * n) = ((2 * n : ℕ) : ℚ) / ((10 : ℕ) : ℚ) by push_cast; ring_nf]
  rw [Nat.floor_div_nat, Nat.floor_natCast]

/-- Helper: train and validation sizes together never exceed the dataset
size. -/
theorem split_sizes_le (n : ℕ) : train_size n + validation_size n ≤ n := by
  rw [train_size_eq, validation_size_eq]
  omega

/-- C8: on any permutation the random split draws of an N-patient list,
the three chunks have sizes floor(0.6 N), floor(0.2 N) and
N - floor(0.6 N) - floor(0.2 N); with distinct patients the chunks are
pairwise disjoint, and their concatenation is a permutation of the whole
patient list. -/
theorem dataset_split_partition (patients perm : List ℕ) (hperm : perm.Perm patients) :
    (dataset_split perm).1.length = train_size patients.length ∧
    (dataset_split perm).2.1.length = validation_size patients.length ∧
    (dataset_split perm).2.2.length =
      patients.length - train_size patients.length - validation_size patients.length ∧
    (patients.Nodup →
      (dataset_split perm).1.Disjoint (dataset_split perm).2.1 ∧
      (dataset_split perm).1.Disjoint (dataset_split perm).2.2 ∧
      (dataset_split perm).2.1.Disjoint (dataset_split perm).2.2) ∧
    ((dataset_split perm).1 ++ (dataset_split perm).2.1 ++ (dataset_split perm).2.2).Perm
      patients := by
  have hlen : perm.length = patients.length := hperm.length_eq
  have hab : train_size perm.length + validation_size perm.length ≤ perm.length :=
    split_sizes_le perm.length
  simp only [dataset_split, random_split3]
  have hte : ((perm.drop (train_size perm.length)).drop (validation_size perm.length)).take
      (test_size perm.length) =
      (perm.drop (train_size perm.length)).drop (validation_size perm.length) := by
    apply List.take_of_length_le
    rw [List.length_drop, List.length_drop]
    unfold test_size
    omega
  refine ⟨?_, ?_, ?_, ?_, ?_⟩
  · rw [List.length_take, hlen]
    have := split_sizes_le patients.length
    omega
  · rw [List.length_take, List.length_drop, hlen]
    have := split_sizes_le patients.length
    omega
  · rw [hte, List.length_drop, List.length_drop, hlen]
  · intro hnd
    have hpnd : perm.Nodup := hperm.nodup_iff.2 hnd
    have hd1 : (perm.take (train_size perm.length)).Disjoint
        (perm.drop (train_size perm.length)) :=
      List.disjoint_take_drop hpnd le_rfl
    have hnd2 : (perm.drop (train_size perm.length)).Nodup :=
      List.Nodup.sublist (List.drop_sublist _ _) hpnd
    have hd2 : ((perm.drop (train_size perm.length)).take (validation_size perm.length)).Disjoint
        ((perm.drop (train_size perm.length)).drop (validation_size perm.length)) :=
      List.disjoint_take_drop hnd2 le_rfl
    refine ⟨?_, ?_, ?_⟩
    · intro x hx hy
      exact hd1 hx (List.take_subset _ _ hy)
    · intro x hx hy
      exact hd1 hx (List.drop_subset _ _ (List.take_subset _ _ hy))
    · intro x hx hy
      rw [hte] at hy
      exact hd2 hx hy
  · rw [hte, List.append_assoc, List.take_append_drop, List.take_append_drop]
    exact hperm

/-- Witness for C8: five patients, one concrete shuffle: chunk sizes
3/1/1, pairwise disjoint, and together a permutation of the patient
list. -/
theorem dataset_split_partition_witness :
    (dataset_split [12, 10, 14, 13, 11]).1.length = train_size 5 ∧
    (dataset_split [12, 10, 14, 13, 11]).2.1.length = validation_size 5 ∧
    (dataset_split [12, 10, 14, 13, 11]).2.2.length = 5 - train_size 5 - validation_size 5 ∧
    ((dataset_split [12, 10, 14, 13, 11]).1.Disjoint (dataset_split [12, 10, 14, 13, 11]).2.1 ∧
      (dataset_split [12, 10, 14, 13, 11]).1.Disjoint (dataset_split [12, 10, 14, 13, 11]).2.2 ∧
      (dataset_split [12, 10, 14, 13, 11]).2.1.Disjoint
        (dataset_split [12, 10, 14, 13, 11]).2.2) ∧
    ((dataset_split [12, 10, 14, 13, 11]).1 ++ (dataset_split [12, 10, 14, 13, 11]).2.1 ++
      (dataset_split [12, 10, 14, 13, 11]).2.2).Perm [10, 11, 12, 13, 14] := by
  have h := dataset_split_partition [10, 11, 12, 13, 14] [12, 10, 14, 13, 11] (by decide)
  exact ⟨h.1, h.2.1, h.2.2.1, h.2.2.2.1 (by decide), h.2.2.2.2⟩
